import Mathlib

/-!
Shallow embedding of src/index.js (a WhatsApp gateway with duplicate
protection): the dedup cache (isDuplicateMessage, cleanupOldEntries), the
send-with-retry policy (sendWithRetry), the connection lifecycle handlers
(QR, close, start-catch) and the HTTP send-endpoint validation, together
with theorems about their behaviour.

Numbers are modelled as Nat: every timestamp the program stores comes from
a Date.now call, so timestamps are positive and current time is at least
every stored timestamp is not assumed; where JS computes a possibly
negative difference that is compared with the window, Nat truncation at 0
gives the same comparison result.
-/

namespace FatWa

/-- Fixed reconnect and message-retry delay in milliseconds (constant RETRY_DELAY in src/index.js). -/
def RETRY_DELAY : Nat := 5000

/-- Maximum reconnect attempts (constant MAX_RETRIES in src/index.js). -/
def MAX_RETRIES : Nat := 10

/-- Duplicate suppression window in milliseconds (constant DUPLICATE_BLOCK_TIME in src/index.js). -/
def DUPLICATE_BLOCK_TIME : Nat := 15000

/-- The Baileys status code DisconnectReason.loggedOut. -/
def loggedOutCode : Nat := 401

/-- The recentMessages Map: fingerprint to last-sent timestamp, kept in
insertion order with unique keys, as a JS Map is. -/
abbrev Cache := List (String × Nat)

/-- Map.get: the value stored at a key, if any. -/
def cacheGet : Cache → String → Option Nat
  | [], _ => none
  | p :: rest, k => if p.1 = k then some p.2 else cacheGet rest k

/-- Map.set: upsert, overwriting in place or appending at the end, as a JS
Map does. -/
def cacheSet : Cache → String → Nat → Cache
  | [], k, v => [(k, v)]
  | p :: rest, k, v => if p.1 = k then (k, v) :: rest else p :: cacheSet rest k v

/-- Character-list prefix test used by strIncludes. -/
def listStartsWith : List Char → List Char → Bool
  | [], _ => true
  | _ :: _, [] => false
  | a :: as, b :: bs => a == b && listStartsWith as bs

/-- Substring search on character lists. -/
def listFindSub (needle : List Char) : List Char → Bool
  | [] => listStartsWith needle []
  | c :: rest => listStartsWith needle (c :: rest) || listFindSub needle rest

/-- JS String.prototype.includes. -/
def strIncludes (hay needle : String) : Bool :=
  listFindSub needle.toList hay.toList

/-- isDuplicateMessage from src/index.js. The key is the exact
concatenation of jid, a colon and the message. The JS code reads the
stored timestamp and tests it for truthiness (if lastSent), so a stored 0
is treated like a missing entry; a present, in-window entry blocks and the
map is untouched, otherwise the current time is upserted and the call
reports no duplicate. Returns the verdict together with the new map. -/
def isDuplicateMessage (c : Cache) (jid message : String) (now : Nat) : Bool × Cache :=
  match cacheGet c (jid ++ ":" ++ message) with
  | some lastSent =>
      if lastSent ≠ 0 ∧ now - lastSent < DUPLICATE_BLOCK_TIME then (true, c)
      else (false, cacheSet c (jid ++ ":" ++ message) now)
  | none => (false, cacheSet c (jid ++ ":" ++ message) now)

/-- cleanupOldEntries from src/index.js: delete every entry whose age is
strictly greater than the window, keep the rest. -/
def cleanupOldEntries (c : Cache) (now : Nat) : Cache :=
  c.filter (fun p => decide (¬ (DUPLICATE_BLOCK_TIME < now - p.2)))

/-- The blocking test of isDuplicateMessage, as a standalone observable:
an entry exists, is truthy, and is within the window. -/
def isBlocking (c : Cache) (key : String) (now : Nat) : Bool :=
  match cacheGet c key with
  | some lastSent => decide (lastSent ≠ 0) && decide (now - lastSent < DUPLICATE_BLOCK_TIME)
  | none => false

theorem cacheGet_cacheSet_same (c : Cache) (k : String) (v : Nat) :
    cacheGet (cacheSet c k v) k = some v := by
  induction c with
  | nil => simp [cacheSet, cacheGet]
  | cons p rest ih =>
      by_cases h : p.1 = k
      · simp [cacheSet, cacheGet, h]
      · simp [cacheSet, cacheGet, h, ih]

theorem cacheGet_cacheSet_other (c : Cache) (k k2 : String) (v : Nat) (h : k2 ≠ k) :
    cacheGet (cacheSet c k v) k2 = cacheGet c k2 := by
  have hne : ¬ (k = k2) := fun hk => h hk.symm
  induction c with
  | nil => simp [cacheSet, cacheGet, hne]
  | cons p rest ih =>
      by_cases hp : p.1 = k
      · simp [cacheSet, cacheGet, hp, hne]
      · simp only [cacheSet, hp, if_false, cacheGet]
        by_cases hp2 : p.1 = k2 <;> simp [hp2, ih]

theorem cacheGet_mem (c : Cache) (k : String) (v : Nat) (h : cacheGet c k = some v) :
    (k, v) ∈ c := by
  induction c with
  | nil => simp [cacheGet] at h
  | cons p rest ih =>
      obtain ⟨k1, v1⟩ := p
      by_cases hp : k1 = k
      · simp only [cacheGet, hp, if_pos] at h
        injection h with h
        subst hp
        subst h
        exact List.mem_cons_self _ _
      · simp [cacheGet, hp] at h
        exact List.mem_cons_of_mem _ (ih h)

/-- isDuplicateMessage in terms of the blocking observable. -/
theorem isDuplicateMessage_eq (c : Cache) (jid message : String) (now : Nat) :
    isDuplicateMessage c jid message now =
      if isBlocking c (jid ++ ":" ++ message) now
      then (true, c)
      else (false, cacheSet c (jid ++ ":" ++ message) now) := by
  unfold isDuplicateMessage isBlocking
  cases h : cacheGet c (jid ++ ":" ++ message) with
  | none => simp
  | some ts =>
      by_cases h1 : ts ≠ 0 ∧ now - ts < DUPLICATE_BLOCK_TIME
      · simp [h1.1, h1.2]
      · have hb : (decide (ts ≠ 0) && decide (now - ts < DUPLICATE_BLOCK_TIME)) = false := by
          rw [not_and_or] at h1
          rcases h1 with h1 | h1
          · simp [not_not.mp h1]
          · simp [h1]
        simp [h1, hb]

/-- Claim C1: the dedup check records on allow. With the fingerprint the
exact concatenation of the jid, a colon and the body, over any cache whose
stored timestamps are positive (every stored timestamp is a Date.now
value): if an entry exists for the fingerprint and its age is strictly
below the cooldown window, the check answers true and the cache is left
untouched; otherwise (entry expired or absent) it answers false and
upserts the current timestamp at that fingerprint, leaving every other key
unchanged. -/
theorem C1_dedup_record_on_allow (c : Cache) (jid body : String) (now ts : Nat)
    (hpos : ∀ p ∈ c, 0 < p.2) :
    (cacheGet c (jid ++ ":" ++ body) = some ts → now - ts < DUPLICATE_BLOCK_TIME →
       isDuplicateMessage c jid body now = (true, c)) ∧
    (cacheGet c (jid ++ ":" ++ body) = some ts → DUPLICATE_BLOCK_TIME ≤ now - ts →
       (isDuplicateMessage c jid body now).1 = false ∧
       cacheGet (isDuplicateMessage c jid body now).2 (jid ++ ":" ++ body) = some now ∧
       ∀ k, k ≠ jid ++ ":" ++ body →
         cacheGet (isDuplicateMessage c jid body now).2 k = cacheGet c k) ∧
    (cacheGet c (jid ++ ":" ++ body) = none →
       (isDuplicateMessage c jid body now).1 = false ∧
       cacheGet (isDuplicateMessage c jid body now).2 (jid ++ ":" ++ body) = some now ∧
       ∀ k, k ≠ jid ++ ":" ++ body →
         cacheGet (isDuplicateMessage c jid body now).2 k = cacheGet c k) := by
  refine ⟨?_, ?_, ?_⟩
  · intro hget hlt
    have hts : 0 < ts := hpos _ (cacheGet_mem c _ ts hget)
    have hb : isBlocking c (jid ++ ":" ++ body) now = true := by
      unfold isBlocking
      rw [hget]
      simp only [Bool.and_eq_true, decide_eq_true_eq]
      exact ⟨by omega, hlt⟩
    rw [isDuplicateMessage_eq, hb]
    simp
  · intro hget hge
    have hb : isBlocking c (jid ++ ":" ++ body) now = false := by
      unfold isBlocking
      rw [hget]
      simp only [Bool.and_eq_false_iff, decide_eq_false_iff_not]
      right
      omega
    rw [isDuplicateMessage_eq, hb]
    exact ⟨rfl, cacheGet_cacheSet_same c _ now,
           fun k hk => cacheGet_cacheSet_other c _ k now hk⟩
  · intro hget
    have hb : isBlocking c (jid ++ ":" ++ body) now = false := by
      unfold isBlocking
      rw [hget]
    rw [isDuplicateMessage_eq, hb]
    exact ⟨rfl, cacheGet_cacheSet_same c _ now,
           fun k hk => cacheGet_cacheSet_other c _ k now hk⟩

theorem C1_dedup_record_on_allow_witness :
    isDuplicateMessage [("a:hi", 1000)] "a" "hi" 1500 = (true, [("a:hi", 1000)]) ∧
    (isDuplicateMessage [("a:hi", 1000)] "a" "hi" 99999).1 = false ∧
    cacheGet (isDuplicateMessage [("a:hi", 1000)] "a" "hi" 99999).2 "a:hi" = some 99999 := by
  have h1 := C1_dedup_record_on_allow [("a:hi", 1000)] "a" "hi" 1500 1000 (by decide)
  have h2 := C1_dedup_record_on_allow [("a:hi", 1000)] "a" "hi" 99999 1000 (by decide)
  exact ⟨h1.1 (by decide) (by decide),
         (h2.2.1 (by decide) (by decide)).1,
         (h2.2.1 (by decide) (by decide)).2.1⟩

/-- The keys of the cache, in order. -/
def cacheKeys (c : Cache) : List String := c.map Prod.fst

theorem cacheGet_eq_none_of_not_mem (c : Cache) (k : String) (h : k ∉ cacheKeys c) :
    cacheGet c k = none := by
  induction c with
  | nil => rfl
  | cons p rest ih =>
      simp only [cacheKeys, List.map_cons, List.mem_cons] at h
      push_neg at h
      simp only [cacheGet]
      rw [if_neg (fun hh => h.1 hh.symm)]
      exact ih h.2

theorem cacheKeys_filter_subset (c : Cache) (f : String × Nat → Bool) (k : String)
    (h : k ∈ cacheKeys (c.filter f)) : k ∈ cacheKeys c := by
  rw [cacheKeys, List.mem_map] at h ⊢
  obtain ⟨p, hp, hpk⟩ := h
  exact ⟨p, List.mem_of_mem_filter hp, hpk⟩

theorem cleanup_all_fresh (c : Cache) (now : Nat) :
    ∀ p ∈ cleanupOldEntries c now, now - p.2 ≤ DUPLICATE_BLOCK_TIME := by
  intro p hp
  unfold cleanupOldEntries at hp
  have := List.of_mem_filter hp
  simp only [decide_eq_true_eq] at this
  omega

theorem cleanup_cons_stale (p : String × Nat) (rest : Cache) (now : Nat)
    (h : DUPLICATE_BLOCK_TIME < now - p.2) :
    cleanupOldEntries (p :: rest) now = cleanupOldEntries rest now := by
  unfold cleanupOldEntries
  rw [List.filter_cons]
  simp [h]

theorem cleanup_cons_fresh (p : String × Nat) (rest : Cache) (now : Nat)
    (h : ¬ (DUPLICATE_BLOCK_TIME < now - p.2)) :
    cleanupOldEntries (p :: rest) now = p :: cleanupOldEntries rest now := by
  unfold cleanupOldEntries
  rw [List.filter_cons]
  simp [h]

theorem cleanup_length_le (c : Cache) (now : Nat) :
    (cleanupOldEntries c now).length ≤ c.length := by
  unfold cleanupOldEntries
  exact List.length_filter_le _ _

theorem cleanup_keeps (c : Cache) (now : Nat) (k : String) (ts : Nat)
    (hget : cacheGet c k = some ts) (hle : now - ts ≤ DUPLICATE_BLOCK_TIME) :
    cacheGet (cleanupOldEntries c now) k = some ts := by
  induction c with
  | nil => simp [cacheGet] at hget
  | cons p rest ih =>
      by_cases hp : p.1 = k
      · have hv : p.2 = ts := by simpa [cacheGet, hp] using hget
        have hage : ¬ (DUPLICATE_BLOCK_TIME < now - p.2) := by omega
        rw [cleanup_cons_fresh p rest now hage]
        simp [cacheGet, hp, hv]
      · have hrest : cacheGet rest k = some ts := by simpa [cacheGet, hp] using hget
        by_cases hage : DUPLICATE_BLOCK_TIME < now - p.2
        · rw [cleanup_cons_stale p rest now hage]
          exact ih hrest
        · rw [cleanup_cons_fresh p rest now hage]
          simp only [cacheGet]
          rw [if_neg hp]
          exact ih hrest

theorem cleanup_removes (c : Cache) (now : Nat) (k : String) (ts : Nat)
    (hnd : (cacheKeys c).Nodup)
    (hget : cacheGet c k = some ts) (hgt : DUPLICATE_BLOCK_TIME < now - ts) :
    cacheGet (cleanupOldEntries c now) k = none := by
  induction c with
  | nil => simp [cacheGet] at hget
  | cons p rest ih =>
      have hndp : p.1 ∉ cacheKeys rest ∧ (cacheKeys rest).Nodup := by
        simpa [cacheKeys] using hnd
      by_cases hp : p.1 = k
      · have hv : p.2 = ts := by simpa [cacheGet, hp] using hget
        have hage : DUPLICATE_BLOCK_TIME < now - p.2 := by omega
        have hknotin : k ∉ cacheKeys rest := by
          rw [← hp]
          exact hndp.1
        rw [cleanup_cons_stale p rest now hage]
        apply cacheGet_eq_none_of_not_mem
        intro hmem
        exact hknotin (cacheKeys_filter_subset rest _ k hmem)
      · have hrest : cacheGet rest k = some ts := by simpa [cacheGet, hp] using hget
        have ihr := ih hndp.2 hrest
        by_cases hage : DUPLICATE_BLOCK_TIME < now - p.2
        · rw [cleanup_cons_stale p rest now hage]
          exact ihr
        · rw [cleanup_cons_fresh p rest now hage]
          simp only [cacheGet]
          rw [if_neg hp]
          exact ihr

theorem cleanup_shrinks (c : Cache) (now : Nat) (k : String) (ts : Nat)
    (hget : cacheGet c k = some ts) (hgt : DUPLICATE_BLOCK_TIME < now - ts) :
    (cleanupOldEntries c now).length < c.length := by
  induction c with
  | nil => simp [cacheGet] at hget
  | cons p rest ih =>
      have hfl := cleanup_length_le rest now
      by_cases hp : p.1 = k
      · have hv : p.2 = ts := by simpa [cacheGet, hp] using hget
        have hage : DUPLICATE_BLOCK_TIME < now - p.2 := by omega
        rw [cleanup_cons_stale p rest now hage]
        simp only [List.length_cons]
        omega
      · have hrest : cacheGet rest k = some ts := by simpa [cacheGet, hp] using hget
        have ihr := ih hrest
        by_cases hage : DUPLICATE_BLOCK_TIME < now - p.2
        · rw [cleanup_cons_stale p rest now hage]
          simp only [List.length_cons]
          omega
        · rw [cleanup_cons_fresh p rest now hage]
          simp only [List.length_cons]
          omega

/-- Claim C7: the prune sweep removes exactly the expired entries. Every
entry in the pruned cache has age at most the window; every entry whose
age does not exceed the window survives with its timestamp intact; and,
over a cache with unique keys (as a JS Map is), every entry whose age
strictly exceeds the window is gone afterwards and the size strictly
decreases. -/
theorem C7_prune_exact (c : Cache) (now : Nat) :
    (∀ p ∈ cleanupOldEntries c now, now - p.2 ≤ DUPLICATE_BLOCK_TIME) ∧
    (∀ k ts, cacheGet c k = some ts → now - ts ≤ DUPLICATE_BLOCK_TIME →
       cacheGet (cleanupOldEntries c now) k = some ts) ∧
    ((cacheKeys c).Nodup → ∀ k ts, cacheGet c k = some ts →
       DUPLICATE_BLOCK_TIME < now - ts →
       cacheGet (cleanupOldEntries c now) k = none ∧
       (cleanupOldEntries c now).length < c.length) := by
  refine ⟨cleanup_all_fresh c now, fun k ts h1 h2 => cleanup_keeps c now k ts h1 h2,
          fun hnd k ts h1 h2 => ⟨cleanup_removes c now k ts hnd h1 h2,
                                 cleanup_shrinks c now k ts h1 h2⟩⟩

theorem C7_prune_exact_witness :
    cacheGet (cleanupOldEntries [("a:x", 100), ("b:y", 99000)] 100000) "a:x" = none ∧
    cacheGet (cleanupOldEntries [("a:x", 100), ("b:y", 99000)] 100000) "b:y" = some 99000 ∧
    (cleanupOldEntries [("a:x", 100), ("b:y", 99000)] 100000).length < 2 := by
  have h := C7_prune_exact [("a:x", 100), ("b:y", 99000)] 100000
  refine ⟨(h.2.2 (by decide) "a:x" 100 (by decide) (by decide)).1,
          h.2.1 "b:y" 99000 (by decide) (by decide),
          (h.2.2 (by decide) "a:x" 100 (by decide) (by decide)).2⟩

/-- The value sendWithRetry resolves with: a suppressed duplicate, or a
real send carrying the optional Baileys message id. -/
inductive SendResult where
  | dedup : SendResult
  | sent : Option String → SendResult
deriving Repr, DecidableEq

/-- The observable outcome of one sendWithRetry activation: the JS return
value or the propagated error, the final recentMessages map, how many
sock.sendMessage calls were made, and the total time spent in waits. -/
structure SendOutcome where
  result : Except String SendResult
  cache : Cache
  dispatches : Nat
  waitedMs : Nat

/-- The world a sendWithRetry activation runs in, indexed by attempt: the
readiness of the connection (isConnected and a non-null sock) when attempt
i runs, the clock when attempt i runs, and the outcome a sock.sendMessage
call at attempt i would have (the ok value is the optional message id). -/
structure SendEnv where
  connAt : Nat → Bool
  timeAt : Nat → Nat
  sendAt : Nat → Except String (Option String)

/-- sendWithRetry from src/index.js. If the connection is not ready the
call throws after the third waited retry, else waits RETRY_DELAY and
retries itself; once ready it consults isDuplicateMessage (which upserts
on allow), short-circuits duplicates as success, dispatches via Baileys
otherwise, and on a thrown send error retries while the retry count is
below 2 and the error message includes the text about not being connected,
propagating the error otherwise. The thrown not-ready error is rethrown by
the catch block unchanged, since it only arises at retry count 3. -/
def sendWithRetry (env : SendEnv) (jid message : String) (c : Cache)
    (messageRetryCount : Nat) (step : Nat) : SendOutcome :=
  if env.connAt step = false then
    if h3 : 3 ≤ messageRetryCount then
      { result := Except.error "WhatsApp not connected after 3 attempts",
        cache := c, dispatches := 0, waitedMs := 0 }
    else
      let r := sendWithRetry env jid message c (messageRetryCount + 1) (step + 1)
      { r with waitedMs := RETRY_DELAY + r.waitedMs }
  else
    let d := isDuplicateMessage c jid message (env.timeAt step)
    if d.1 then
      { result := Except.ok SendResult.dedup, cache := d.2, dispatches := 0, waitedMs := 0 }
    else
      match env.sendAt step with
      | Except.ok msgId =>
          { result := Except.ok (SendResult.sent msgId), cache := d.2,
            dispatches := 1, waitedMs := 0 }
      | Except.error e =>
          if h2 : messageRetryCount < 2 then
            if strIncludes e "not connected" then
              let r := sendWithRetry env jid message d.2 (messageRetryCount + 1) (step + 1)
              { r with dispatches := r.dispatches + 1, waitedMs := RETRY_DELAY + r.waitedMs }
            else
              { result := Except.error e, cache := d.2, dispatches := 1, waitedMs := 0 }
          else
            { result := Except.error e, cache := d.2, dispatches := 1, waitedMs := 0 }
termination_by 4 - messageRetryCount
decreasing_by
  all_goals omega

theorem sendWithRetry_unready_done (env : SendEnv) (jid message : String) (c : Cache)
    (k step : Nat) (hc : env.connAt step = false) (hk : 3 ≤ k) :
    sendWithRetry env jid message c k step =
      { result := Except.error "WhatsApp not connected after 3 attempts",
        cache := c, dispatches := 0, waitedMs := 0 } := by
  conv_lhs => rw [sendWithRetry]
  rw [if_pos hc, dif_pos hk]

theorem sendWithRetry_unready_wait (env : SendEnv) (jid message : String) (c : Cache)
    (k step : Nat) (hc : env.connAt step = false) (hk : k < 3) :
    sendWithRetry env jid message c k step =
      { sendWithRetry env jid message c (k + 1) (step + 1) with
        waitedMs := RETRY_DELAY + (sendWithRetry env jid message c (k + 1) (step + 1)).waitedMs } := by
  conv_lhs => rw [sendWithRetry]
  rw [if_pos hc, dif_neg (by omega)]

theorem sendWithRetry_ready_dup (env : SendEnv) (jid message : String) (c : Cache)
    (k step : Nat) (hc : env.connAt step = true)
    (hd : isBlocking c (jid ++ ":" ++ message) (env.timeAt step) = true) :
    sendWithRetry env jid message c k step =
      { result := Except.ok SendResult.dedup, cache := c, dispatches := 0, waitedMs := 0 } := by
  conv_lhs => rw [sendWithRetry]
  rw [if_neg (by simp [hc])]
  simp only [isDuplicateMessage_eq, hd, if_true]

theorem sendWithRetry_ready_sent (env : SendEnv) (jid message : String) (c : Cache)
    (k step : Nat) (msgId : Option String) (hc : env.connAt step = true)
    (hd : isBlocking c (jid ++ ":" ++ message) (env.timeAt step) = false)
    (hs : env.sendAt step = Except.ok msgId) :
    sendWithRetry env jid message c k step =
      { result := Except.ok (SendResult.sent msgId),
        cache := cacheSet c (jid ++ ":" ++ message) (env.timeAt step),
        dispatches := 1, waitedMs := 0 } := by
  conv_lhs => rw [sendWithRetry]
  rw [if_neg (by simp [hc])]
  simp only [isDuplicateMessage_eq, hd, if_false, Bool.false_eq_true, hs]

theorem sendWithRetry_ready_error_stop (env : SendEnv) (jid message : String) (c : Cache)
    (k step : Nat) (e : String) (hc : env.connAt step = true)
    (hd : isBlocking c (jid ++ ":" ++ message) (env.timeAt step) = false)
    (hs : env.sendAt step = Except.error e)
    (hstop : 2 ≤ k ∨ strIncludes e "not connected" = false) :
    sendWithRetry env jid message c k step =
      { result := Except.error e,
        cache := cacheSet c (jid ++ ":" ++ message) (env.timeAt step),
        dispatches := 1, waitedMs := 0 } := by
  conv_lhs => rw [sendWithRetry]
  rw [if_neg (by simp [hc])]
  simp only [isDuplicateMessage_eq, hd, if_false, Bool.false_eq_true, hs]
  rcases hstop with hstop | hstop
  · rw [dif_neg (by omega)]
  · by_cases hk2 : k < 2
    · rw [dif_pos hk2, hstop]
      simp
    · rw [dif_neg hk2]

/-- Claim C4: when the connection is unready, sendWithPolicy retries the
whole send with a fixed RETRY_DELAY between attempts and throws the
connection-unavailable error exactly after the attempt budget (initial
check plus three waited retries) is exhausted while still unready, having
touched neither the cache nor the network; if readiness arrives at any
attempt within the budget, that pending attempt proceeds and, with a
fresh fingerprint and an accepting transport, succeeds with one dispatch. -/
theorem C4_unready_retry_bound (env : SendEnv) (jid message : String) (c : Cache) :
    ((env.connAt 0 = false ∧ env.connAt 1 = false ∧ env.connAt 2 = false ∧ env.connAt 3 = false) →
       sendWithRetry env jid message c 0 0 =
         { result := Except.error "WhatsApp not connected after 3 attempts",
           cache := c, dispatches := 0, waitedMs := 3 * RETRY_DELAY }) ∧
    (∀ j msgId, j ≤ 3 → (∀ i, i < j → env.connAt i = false) → env.connAt j = true →
       isBlocking c (jid ++ ":" ++ message) (env.timeAt j) = false →
       env.sendAt j = Except.ok msgId →
       (sendWithRetry env jid message c 0 0).result = Except.ok (SendResult.sent msgId) ∧
       (sendWithRetry env jid message c 0 0).dispatches = 1) := by
  constructor
  · rintro ⟨h0, h1, h2, h3⟩
    rw [sendWithRetry_unready_wait env jid message c 0 0 h0 (by omega),
        sendWithRetry_unready_wait env jid message c 1 1 h1 (by omega),
        sendWithRetry_unready_wait env jid message c 2 2 h2 (by omega),
        sendWithRetry_unready_done env jid message c 3 3 h3 (by omega)]
    rfl
  · intro j msgId hj hprev hready hnb hsend
    interval_cases j
    · rw [sendWithRetry_ready_sent env jid message c 0 0 msgId hready hnb hsend]
      exact ⟨rfl, rfl⟩
    · rw [sendWithRetry_unready_wait env jid message c 0 0 (hprev 0 (by omega)) (by omega),
          sendWithRetry_ready_sent env jid message c 1 1 msgId hready hnb hsend]
      exact ⟨rfl, rfl⟩
    · rw [sendWithRetry_unready_wait env jid message c 0 0 (hprev 0 (by omega)) (by omega),
          sendWithRetry_unready_wait env jid message c 1 1 (hprev 1 (by omega)) (by omega),
          sendWithRetry_ready_sent env jid message c 2 2 msgId hready hnb hsend]
      exact ⟨rfl, rfl⟩
    · rw [sendWithRetry_unready_wait env jid message c 0 0 (hprev 0 (by omega)) (by omega),
          sendWithRetry_unready_wait env jid message c 1 1 (hprev 1 (by omega)) (by omega),
          sendWithRetry_unready_wait env jid message c 2 2 (hprev 2 (by omega)) (by omega),
          sendWithRetry_ready_sent env jid message c 3 3 msgId hready hnb hsend]
      exact ⟨rfl, rfl⟩

theorem C4_unready_retry_bound_witness :
    sendWithRetry ⟨fun _ => false, fun _ => 0, fun _ => Except.error "x"⟩ "j" "m" [] 0 0 =
      { result := Except.error "WhatsApp not connected after 3 attempts",
        cache := [], dispatches := 0, waitedMs := 3 * RETRY_DELAY } ∧
    (sendWithRetry ⟨fun _ => true, fun _ => 1000, fun _ => Except.ok (some "id")⟩
        "j" "m" [] 0 0).result = Except.ok (SendResult.sent (some "id")) := by
  have h1 := C4_unready_retry_bound ⟨fun _ => false, fun _ => 0, fun _ => Except.error "x"⟩ "j" "m" []
  have h2 := C4_unready_retry_bound ⟨fun _ => true, fun _ => 1000, fun _ => Except.ok (some "id")⟩ "j" "m" []
  exact ⟨h1.1 ⟨rfl, rfl, rfl, rfl⟩,
         (h2.2 0 (some "id") (by omega) (fun i hi => absurd hi (Nat.not_lt_zero i)) rfl rfl rfl).1⟩

/-- Claim C2: with the connection ready, an accepted first send records the
fingerprint, so an identical call within the cooldown window is answered
as a duplicate with no network dispatch, while an identical call once the
window has elapsed dispatches for real again: no fingerprint is
permanently blocked. Times are Date.now values, hence positive. -/
theorem C2_window_semantics (env1 env2 env3 : SendEnv) (jid message : String)
    (c : Cache) (t1 t2 t3 : Nat) (id1 id3 : Option String)
    (h1c : env1.connAt 0 = true) (h1t : env1.timeAt 0 = t1) (h1p : 0 < t1)
    (h1b : isBlocking c (jid ++ ":" ++ message) t1 = false)
    (h1s : env1.sendAt 0 = Except.ok id1)
    (h2c : env2.connAt 0 = true) (h2t : env2.timeAt 0 = t2)
    (h2w : t2 - t1 < DUPLICATE_BLOCK_TIME)
    (h3c : env3.connAt 0 = true) (h3t : env3.timeAt 0 = t3)
    (h3w : DUPLICATE_BLOCK_TIME ≤ t3 - t1)
    (h3s : env3.sendAt 0 = Except.ok id3) :
    (sendWithRetry env1 jid message c 0 0).result = Except.ok (SendResult.sent id1) ∧
    (sendWithRetry env1 jid message c 0 0).dispatches = 1 ∧
    (sendWithRetry env2 jid message (sendWithRetry env1 jid message c 0 0).cache 0 0).result =
      Except.ok SendResult.dedup ∧
    (sendWithRetry env2 jid message (sendWithRetry env1 jid message c 0 0).cache 0 0).dispatches = 0 ∧
    (sendWithRetry env3 jid message (sendWithRetry env1 jid message c 0 0).cache 0 0).result =
      Except.ok (SendResult.sent id3) ∧
    (sendWithRetry env3 jid message (sendWithRetry env1 jid message c 0 0).cache 0 0).dispatches = 1 := by
  have h1b0 : isBlocking c (jid ++ ":" ++ message) (env1.timeAt 0) = false := by
    rw [h1t]
    exact h1b
  have e1 := sendWithRetry_ready_sent env1 jid message c 0 0 id1 h1c h1b0 h1s
  have hcache : (sendWithRetry env1 jid message c 0 0).cache =
      cacheSet c (jid ++ ":" ++ message) t1 := by
    rw [e1, h1t]
  have hget : cacheGet (cacheSet c (jid ++ ":" ++ message) t1) (jid ++ ":" ++ message) = some t1 :=
    cacheGet_cacheSet_same c _ t1
  have hb2 : isBlocking (sendWithRetry env1 jid message c 0 0).cache (jid ++ ":" ++ message)
      (env2.timeAt 0) = true := by
    rw [hcache]
    unfold isBlocking
    rw [hget, h2t]
    simp only [Bool.and_eq_true, decide_eq_true_eq]
    exact ⟨by omega, h2w⟩
  have hb3 : isBlocking (sendWithRetry env1 jid message c 0 0).cache (jid ++ ":" ++ message)
      (env3.timeAt 0) = false := by
    rw [hcache]
    unfold isBlocking
    rw [hget, h3t]
    simp only [Bool.and_eq_false_iff, decide_eq_false_iff_not]
    right
    omega
  have e2 := sendWithRetry_ready_dup env2 jid message
    (sendWithRetry env1 jid message c 0 0).cache 0 0 h2c hb2
  have e3 := sendWithRetry_ready_sent env3 jid message
    (sendWithRetry env1 jid message c 0 0).cache 0 0 id3 h3c hb3 h3s
  refine ⟨by rw [e1], by rw [e1], by rw [e2], by rw [e2], by rw [e3], by rw [e3]⟩

theorem C2_window_semantics_witness :
    (sendWithRetry ⟨fun _ => true, fun _ => 2000, fun _ => Except.ok (some "B")⟩ "j" "m"
       (sendWithRetry ⟨fun _ => true, fun _ => 1000, fun _ => Except.ok (some "A")⟩
          "j" "m" [] 0 0).cache 0 0).result = Except.ok SendResult.dedup ∧
    (sendWithRetry ⟨fun _ => true, fun _ => 2000, fun _ => Except.ok (some "B")⟩ "j" "m"
       (sendWithRetry ⟨fun _ => true, fun _ => 1000, fun _ => Except.ok (some "A")⟩
          "j" "m" [] 0 0).cache 0 0).dispatches = 0 ∧
    (sendWithRetry ⟨fun _ => true, fun _ => 40000, fun _ => Except.ok (some "C")⟩ "j" "m"
       (sendWithRetry ⟨fun _ => true, fun _ => 1000, fun _ => Except.ok (some "A")⟩
          "j" "m" [] 0 0).cache 0 0).result = Except.ok (SendResult.sent (some "C")) := by
  have h := C2_window_semantics
    ⟨fun _ => true, fun _ => 1000, fun _ => Except.ok (some "A")⟩
    ⟨fun _ => true, fun _ => 2000, fun _ => Except.ok (some "B")⟩
    ⟨fun _ => true, fun _ => 40000, fun _ => Except.ok (some "C")⟩
    "j" "m" [] 1000 2000 40000 (some "A") (some "C")
    rfl rfl (by decide) rfl rfl rfl rfl (by decide) rfl rfl (by decide) rfl
  exact ⟨h.2.2.1, h.2.2.2.1, h.2.2.2.2.1⟩

/-- Claim C9: the dedup timestamp is upserted before the network send, so
the operation is not atomic on error: when the transport throws on a
message the dedup check had just allowed, the recorded timestamp stays in
the cache, and an immediate identical retry within the window is
suppressed and reported as a successful duplicate with no dispatch. -/
theorem C9_record_before_send (env1 env2 : SendEnv) (jid message e : String)
    (c : Cache) (t1 t2 : Nat)
    (h1c : env1.connAt 0 = true) (h1t : env1.timeAt 0 = t1) (h1p : 0 < t1)
    (h1b : isBlocking c (jid ++ ":" ++ message) t1 = false)
    (h1s : env1.sendAt 0 = Except.error e)
    (hni : strIncludes e "not connected" = false)
    (h2c : env2.connAt 0 = true) (h2t : env2.timeAt 0 = t2)
    (h2w : t2 - t1 < DUPLICATE_BLOCK_TIME) :
    (sendWithRetry env1 jid message c 0 0).result = Except.error e ∧
    (sendWithRetry env1 jid message c 0 0).dispatches = 1 ∧
    cacheGet (sendWithRetry env1 jid message c 0 0).cache (jid ++ ":" ++ message) = some t1 ∧
    (sendWithRetry env2 jid message (sendWithRetry env1 jid message c 0 0).cache 0 0).result =
      Except.ok SendResult.dedup ∧
    (sendWithRetry env2 jid message (sendWithRetry env1 jid message c 0 0).cache 0 0).dispatches = 0 := by
  have h1b0 : isBlocking c (jid ++ ":" ++ message) (env1.timeAt 0) = false := by
    rw [h1t]
    exact h1b
  have e1 := sendWithRetry_ready_error_stop env1 jid message c 0 0 e h1c h1b0 h1s (Or.inr hni)
  have hcache : (sendWithRetry env1 jid message c 0 0).cache =
      cacheSet c (jid ++ ":" ++ message) t1 := by
    rw [e1, h1t]
  have hget : cacheGet (cacheSet c (jid ++ ":" ++ message) t1) (jid ++ ":" ++ message) = some t1 :=
    cacheGet_cacheSet_same c _ t1
  have hb2 : isBlocking (sendWithRetry env1 jid message c 0 0).cache (jid ++ ":" ++ message)
      (env2.timeAt 0) = true := by
    rw [hcache]
    unfold isBlocking
    rw [hget, h2t]
    simp only [Bool.and_eq_true, decide_eq_true_eq]
    exact ⟨by omega, h2w⟩
  have e2 := sendWithRetry_ready_dup env2 jid message
    (sendWithRetry env1 jid message c 0 0).cache 0 0 h2c hb2
  refine ⟨by rw [e1], by rw [e1], by rw [hcache]; exact hget, by rw [e2], by rw [e2]⟩

theorem C9_record_before_send_witness :
    (sendWithRetry ⟨fun _ => true, fun _ => 1000, fun _ => Except.error "boom"⟩
        "j" "m" [] 0 0).result = Except.error "boom" ∧
    cacheGet (sendWithRetry ⟨fun _ => true, fun _ => 1000, fun _ => Except.error "boom"⟩
        "j" "m" [] 0 0).cache "j:m" = some 1000 ∧
    (sendWithRetry ⟨fun _ => true, fun _ => 1500, fun _ => Except.ok (some "D")⟩ "j" "m"
       (sendWithRetry ⟨fun _ => true, fun _ => 1000, fun _ => Except.error "boom"⟩
          "j" "m" [] 0 0).cache 0 0).result = Except.ok SendResult.dedup := by
  have h := C9_record_before_send
    ⟨fun _ => true, fun _ => 1000, fun _ => Except.error "boom"⟩
    ⟨fun _ => true, fun _ => 1500, fun _ => Except.ok (some "D")⟩
    "j" "m" "boom" [] 1000 1500
    rfl rfl (by decide) rfl rfl (by decide) rfl rfl (by decide)
  exact ⟨h.1, h.2.2.1, h.2.2.2.1⟩

/-- The module-level mutable session state of src/index.js: the readiness
flag isConnected, the reconnect counter retryCount, the recentMessages
dedup map, and the (opaque) socket handle sock. -/
structure ServerState where
  isConnected : Bool
  retryCount : Nat
  recentMessages : Cache
  sock : Option String
deriving Repr, DecidableEq

/-- What a connection-lifecycle handler does besides updating state:
whether it schedules startWhatsApp again, after which delay, and whether
it logs the max-reconnection-attempts-reached message. -/
structure LifecycleOutcome where
  state : ServerState
  reconnectScheduled : Bool
  reconnectDelay : Nat
  exhaustedLogged : Bool
deriving Repr, DecidableEq

/-- The qr branch of the connection.update handler in startWhatsApp:
after rendering the QR code it sets isConnected to false and resets
retryCount to 0. -/
def qrHandler (s : ServerState) : ServerState :=
  { s with isConnected := false, retryCount := 0 }

/-- The close branch of the connection.update handler in startWhatsApp:
drop readiness; reconnect (after RETRY_DELAY, incrementing retryCount)
when the status code is not the logged-out reason and the counter is
below MAX_RETRIES; otherwise, when the counter has reached MAX_RETRIES,
log the exhausted message and stop. The status code is optional because
the JS optional chain can yield undefined. -/
def closeHandler (s : ServerState) (statusCode : Option Nat) : LifecycleOutcome :=
  let s1 : ServerState := { s with isConnected := false }
  if statusCode ≠ some loggedOutCode ∧ s1.retryCount < MAX_RETRIES then
    { state := { s1 with retryCount := s1.retryCount + 1 },
      reconnectScheduled := true, reconnectDelay := RETRY_DELAY, exhaustedLogged := false }
  else if MAX_RETRIES ≤ s1.retryCount then
    { state := s1, reconnectScheduled := false, reconnectDelay := 0, exhaustedLogged := true }
  else
    { state := s1, reconnectScheduled := false, reconnectDelay := 0, exhaustedLogged := false }

/-- The catch branch of startWhatsApp: on an error thrown during startup,
retry (after RETRY_DELAY, incrementing retryCount) while the counter is
below MAX_RETRIES; otherwise do nothing at all. -/
def startCatchHandler (s : ServerState) : LifecycleOutcome :=
  if s.retryCount < MAX_RETRIES then
    { state := { s with retryCount := s.retryCount + 1 },
      reconnectScheduled := true, reconnectDelay := RETRY_DELAY, exhaustedLogged := false }
  else
    { state := s, reconnectScheduled := false, reconnectDelay := 0, exhaustedLogged := false }

/-- Claim C3: on a close event the manager drops readiness and inspects
the cause: a logged-out cause never schedules a reconnect; a non-terminal
cause with retryCount below MAX_RETRIES increments the counter and
schedules start() again after the fixed RETRY_DELAY; and once retryCount
has reached MAX_RETRIES no reconnect is scheduled, the exhausted condition
is surfaced, and the state stays unready with the counter frozen (the
handler returns normally, so the process keeps running). -/
theorem C3_close_lifecycle (s : ServerState) (statusCode : Option Nat) :
    ((closeHandler s statusCode).state.isConnected = false) ∧
    (statusCode = some loggedOutCode → (closeHandler s statusCode).reconnectScheduled = false) ∧
    (statusCode ≠ some loggedOutCode → s.retryCount < MAX_RETRIES →
       (closeHandler s statusCode).reconnectScheduled = true ∧
       (closeHandler s statusCode).reconnectDelay = RETRY_DELAY ∧
       (closeHandler s statusCode).state.retryCount = s.retryCount + 1 ∧
       (closeHandler s statusCode).exhaustedLogged = false) ∧
    (MAX_RETRIES ≤ s.retryCount →
       (closeHandler s statusCode).reconnectScheduled = false ∧
       (closeHandler s statusCode).exhaustedLogged = true ∧
       (closeHandler s statusCode).state.retryCount = s.retryCount) := by
  refine ⟨?_, ?_, ?_, ?_⟩
  · by_cases h1 : statusCode ≠ some loggedOutCode ∧ s.retryCount < MAX_RETRIES
    · simp [closeHandler, h1]
    · by_cases h2 : MAX_RETRIES ≤ s.retryCount
      · simp [closeHandler, h1, h2]
      · simp [closeHandler, h1, h2]
  · intro h
    have h1 : ¬ (statusCode ≠ some loggedOutCode ∧ s.retryCount < MAX_RETRIES) := by
      simp [h]
    by_cases h2 : MAX_RETRIES ≤ s.retryCount
    · simp [closeHandler, h1, h2]
    · simp [closeHandler, h1, h2]
  · intro hne hlt
    simp [closeHandler, hne, hlt]
  · intro h2
    have h1 : ¬ (statusCode ≠ some loggedOutCode ∧ s.retryCount < MAX_RETRIES) := by
      rintro ⟨-, hlt⟩
      omega
    simp [closeHandler, h1, h2]

theorem C3_close_lifecycle_witness :
    (closeHandler ⟨true, 3, [], some "S"⟩ (some 428)).reconnectScheduled = true ∧
    (closeHandler ⟨true, 3, [], some "S"⟩ (some 428)).state.retryCount = 4 ∧
    (closeHandler ⟨true, 3, [], some "S"⟩ (some 401)).reconnectScheduled = false ∧
    (closeHandler ⟨false, 10, [], none⟩ (some 428)).reconnectScheduled = false ∧
    (closeHandler ⟨false, 10, [], none⟩ (some 428)).exhaustedLogged = true := by
  have ha := C3_close_lifecycle ⟨true, 3, [], some "S"⟩ (some 428)
  have hb := C3_close_lifecycle ⟨true, 3, [], some "S"⟩ (some 401)
  have hc := C3_close_lifecycle ⟨false, 10, [], none⟩ (some 428)
  exact ⟨(ha.2.2.1 (by decide) (by decide)).1,
         (ha.2.2.1 (by decide) (by decide)).2.2.1,
         hb.2.1 rfl,
         (hc.2.2.2 (by decide)).1,
         (hc.2.2.2 (by decide)).2.1⟩

/-- Claim C8 as stated fails on the code: at retryCount = MAX_RETRIES a
non-terminal close event logs the reconnection-exhausted condition but the
start() catch branch stays silent, and the close handler drops the
readiness flag while the catch branch leaves it untouched, so the two
paths are behaviourally distinct. -/
theorem C8_counterexample :
    startCatchHandler ⟨true, 10, [], some "S"⟩ ≠
      closeHandler ⟨true, 10, [], some "S"⟩ (some 428) ∧
    (startCatchHandler ⟨true, 10, [], some "S"⟩).exhaustedLogged = false ∧
    (closeHandler ⟨true, 10, [], some "S"⟩ (some 428)).exhaustedLogged = true ∧
    (startCatchHandler ⟨true, 10, [], some "S"⟩).state.isConnected = true ∧
    (closeHandler ⟨true, 10, [], some "S"⟩ (some 428)).state.isConnected = false := by
  decide

/-- Claim C8 amended: an error thrown during start() funnels into the same
bounded-retry path as a non-terminal close event — the same shared
retryCount, the same MAX_RETRIES bound, the same fixed RETRY_DELAY, the
same counter increment — but, unlike the close handler, when the retries
have run out it does not surface the reconnection-exhausted condition, and
it never touches the readiness flag. -/
theorem C8_start_catch_vs_close (s : ServerState) (statusCode : Option Nat)
    (hc : statusCode ≠ some loggedOutCode) :
    (s.retryCount < MAX_RETRIES →
       (startCatchHandler s).reconnectScheduled = true ∧
       (closeHandler s statusCode).reconnectScheduled = true ∧
       (startCatchHandler s).reconnectDelay = RETRY_DELAY ∧
       (closeHandler s statusCode).reconnectDelay = RETRY_DELAY ∧
       (startCatchHandler s).state.retryCount = s.retryCount + 1 ∧
       (closeHandler s statusCode).state.retryCount = s.retryCount + 1) ∧
    (MAX_RETRIES ≤ s.retryCount →
       (startCatchHandler s).reconnectScheduled = false ∧
       (closeHandler s statusCode).reconnectScheduled = false ∧
       (startCatchHandler s).exhaustedLogged = false ∧
       (closeHandler s statusCode).exhaustedLogged = true) ∧
    (startCatchHandler s).state.isConnected = s.isConnected ∧
    (closeHandler s statusCode).state.isConnected = false := by
  refine ⟨?_, ?_, ?_, ?_⟩
  · intro hlt
    simp [startCatchHandler, closeHandler, hc, hlt]
  · intro hge
    have h1 : ¬ (statusCode ≠ some loggedOutCode ∧ s.retryCount < MAX_RETRIES) := by
      rintro ⟨-, hlt⟩
      omega
    have h2 : ¬ (s.retryCount < MAX_RETRIES) := by omega
    simp [startCatchHandler, closeHandler, h1, h2, hge]
  · by_cases hlt : s.retryCount < MAX_RETRIES
    · simp [startCatchHandler, hlt]
    · simp [startCatchHandler, hlt]
  · by_cases h1 : statusCode ≠ some loggedOutCode ∧ s.retryCount < MAX_RETRIES
    · simp [closeHandler, h1]
    · by_cases h2 : MAX_RETRIES ≤ s.retryCount
      · simp [closeHandler, h1, h2]
      · simp [closeHandler, h1, h2]

theorem C8_start_catch_vs_close_witness :
    (startCatchHandler ⟨true, 0, [], none⟩).reconnectScheduled = true ∧
    (startCatchHandler ⟨true, 0, [], none⟩).state.retryCount = 1 ∧
    (closeHandler ⟨true, 0, [], none⟩ (some 428)).state.retryCount = 1 := by
  have h := C8_start_catch_vs_close ⟨true, 0, [], none⟩ (some 428) (by decide)
  exact ⟨(h.1 (by decide)).1, (h.1 (by decide)).2.2.2.2.1, (h.1 (by decide)).2.2.2.2.2⟩

/-- Claim C10: a QR pairing-challenge event sets the readiness flag to
false and resets retryCount to 0 — replenishing the whole reconnect
budget without a successful open — and changes nothing else: the dedup
cache and the connection handle are left untouched. -/
theorem C10_qr_frame (s : ServerState) :
    (qrHandler s).isConnected = false ∧
    (qrHandler s).retryCount = 0 ∧
    (qrHandler s).recentMessages = s.recentMessages ∧
    (qrHandler s).sock = s.sock :=
  ⟨rfl, rfl, rfl, rfl⟩

/-- JS truthiness of an optional string request field: undefined and the
empty string are falsy, every other string is truthy. -/
def truthyField : Option String → Bool
  | none => false
  | some s => !(s == "")

/-- The jid normalization of the POST /send handler: append the default
domain suffix unless the input already includes the separator. -/
def normalizeNumber (number : String) : String :=
  if strIncludes number "@" then number else number ++ "@s.whatsapp.net"

/-- The anchored regex of the POST /send handler (digits, one or more,
then the literal suffix): since the suffix starts with a non-digit, a
match is exactly a nonempty digit prefix whose remainder is the suffix. -/
def jidPattern (jid : String) : Bool :=
  decide (jid.toList.takeWhile Char.isDigit ≠ []) &&
  jid.toList.dropWhile Char.isDigit == "@s.whatsapp.net".toList

/-- Where the POST /send handler goes after reading the body: reject for
a missing or empty field (recording the truthiness of both), reject for a
malformed jid, or proceed to sendWithRetry with the normalized jid. -/
inductive ValidationResult where
  | missingFields : Bool → Bool → ValidationResult
  | invalidFormat : ValidationResult
  | proceed : String → String → ValidationResult
deriving Repr, DecidableEq

/-- The validation phase of the POST /send handler in src/index.js. -/
def handleSendValidation (number message : Option String) : ValidationResult :=
  if truthyField number = false ∨ truthyField message = false then
    ValidationResult.missingFields (truthyField number) (truthyField message)
  else
    match number, message with
    | some n, some m =>
        if jidPattern (normalizeNumber n) then
          ValidationResult.proceed (normalizeNumber n) m
        else ValidationResult.invalidFormat
    | _, _ => ValidationResult.missingFields (truthyField number) (truthyField message)

/-- The JSON answer of the POST /send route, restricted to the fields the
claims speak about. -/
structure HttpResponse where
  status : Nat
  errorText : Option String
  received : Option (Bool × Bool)
  duplicate : Option Bool
deriving Repr, DecidableEq

/-- The POST /send handler: validate, then run sendWithRetry and map its
outcome to the HTTP response. Returns the response, the final dedup
cache, the number of network dispatches and the waited milliseconds. -/
def handleSend (env : SendEnv) (c : Cache) (number message : Option String) :
    HttpResponse × Cache × Nat × Nat :=
  match handleSendValidation number message with
  | ValidationResult.missingFields nf mf =>
      ({ status := 400, errorText := some "Missing number or message",
         received := some (nf, mf), duplicate := none }, c, 0, 0)
  | ValidationResult.invalidFormat =>
      ({ status := 400, errorText := some "Invalid number format. Use: 254712345678",
         received := none, duplicate := none }, c, 0, 0)
  | ValidationResult.proceed jid m =>
      let r := sendWithRetry env jid m c 0 0
      match r.result with
      | Except.ok SendResult.dedup =>
          ({ status := 200, errorText := none, received := none, duplicate := some true },
           r.cache, r.dispatches, r.waitedMs)
      | Except.ok (SendResult.sent _) =>
          ({ status := 200, errorText := none, received := none, duplicate := some false },
           r.cache, r.dispatches, r.waitedMs)
      | Except.error _ =>
          ({ status := 503, errorText := some "Failed to send message",
             received := none, duplicate := none }, r.cache, r.dispatches, r.waitedMs)

/-- Claim C5: for nonempty fields, a number without the separator gets the
fixed default domain suffix appended and a number with it passes through
unchanged, and the request is rejected with 400 exactly when the resulting
address fails the anchored digits-then-suffix pattern; a bare digit string
such as 254712345678 is accepted. -/
theorem C5_number_normalization (n m : String) (hn : n ≠ "") (hm : m ≠ "") :
    (strIncludes n "@" = false → normalizeNumber n = n ++ "@s.whatsapp.net") ∧
    (strIncludes n "@" = true → normalizeNumber n = n) ∧
    (handleSendValidation (some n) (some m) = ValidationResult.invalidFormat ↔
       jidPattern (normalizeNumber n) = false) ∧
    (jidPattern (normalizeNumber n) = true →
       handleSendValidation (some n) (some m) = ValidationResult.proceed (normalizeNumber n) m) := by
  have htn : truthyField (some n) = true := by
    simp [truthyField, hn]
  have htm : truthyField (some m) = true := by
    simp [truthyField, hm]
  have hguard : ¬ (truthyField (some n) = false ∨ truthyField (some m) = false) := by
    simp [htn, htm]
  have hval : handleSendValidation (some n) (some m) =
      if jidPattern (normalizeNumber n) then ValidationResult.proceed (normalizeNumber n) m
      else ValidationResult.invalidFormat := by
    unfold handleSendValidation
    rw [if_neg hguard]
  refine ⟨?_, ?_, ?_, ?_⟩
  · intro h
    unfold normalizeNumber
    rw [h]
    simp
  · intro h
    unfold normalizeNumber
    rw [h]
    simp
  · rw [hval]
    by_cases hj : jidPattern (normalizeNumber n) = true
    · rw [if_pos hj]
      constructor
      · intro hcontr
        exact absurd hcontr (by simp)
      · intro hfalse
        rw [hj] at hfalse
        exact absurd hfalse (by simp)
    · have hjf : jidPattern (normalizeNumber n) = false := by
        simpa using hj
      rw [if_neg hj]
      simp [hjf]
  · intro hj
    rw [hval, if_pos hj]

theorem C5_number_normalization_witness :
    normalizeNumber "254712345678" = "254712345678" ++ "@s.whatsapp.net" ∧
    handleSendValidation (some "254712345678") (some "hello") =
      ValidationResult.proceed (normalizeNumber "254712345678") "hello" ∧
    handleSendValidation (some "+254-712") (some "hello") = ValidationResult.invalidFormat := by
  have h := C5_number_normalization "254712345678" "hello" (by decide) (by decide)
  have h2 := C5_number_normalization "+254-712" "hello" (by decide) (by decide)
  exact ⟨h.1 (by decide), h.2.2.2 (by decide), h2.2.2.1.mpr (by decide)⟩

/-- Claim C6: a POST /send whose number or message is missing or empty is
answered 400 with the body reporting the truthiness flag of both fields,
and nothing else happens: the dedup cache is not consulted or changed, no
readiness retry or wait occurs, and no network dispatch is made. -/
theorem C6_validation_short_circuit (env : SendEnv) (c : Cache) (number message : Option String)
    (h : truthyField number = false ∨ truthyField message = false) :
    (handleSend env c number message).1.status = 400 ∧
    (handleSend env c number message).1.received =
      some (truthyField number, truthyField message) ∧
    (handleSend env c number message).2.1 = c ∧
    (handleSend env c number message).2.2.1 = 0 ∧
    (handleSend env c number message).2.2.2 = 0 := by
  have hv : handleSendValidation number message =
      ValidationResult.missingFields (truthyField number) (truthyField message) := by
    unfold handleSendValidation
    rw [if_pos h]
  unfold handleSend
  rw [hv]
  exact ⟨rfl, rfl, rfl, rfl, rfl⟩

theorem C6_validation_short_circuit_witness :
    (handleSend ⟨fun _ => true, fun _ => 1000, fun _ => Except.ok none⟩ [("k", 5)]
        (some "") (some "hi")).1.status = 400 ∧
    (handleSend ⟨fun _ => true, fun _ => 1000, fun _ => Except.ok none⟩ [("k", 5)]
        (some "") (some "hi")).1.received = some (false, true) ∧
    (handleSend ⟨fun _ => true, fun _ => 1000, fun _ => Except.ok none⟩ [("k", 5)]
        (some "") (some "hi")).2.1 = [("k", 5)] ∧
    (handleSend ⟨fun _ => true, fun _ => 1000, fun _ => Except.ok none⟩ [("k", 5)]
        (some "") (some "hi")).2.2.1 = 0 := by
  have h := C6_validation_short_circuit ⟨fun _ => true, fun _ => 1000, fun _ => Except.ok none⟩
    [("k", 5)] (some "") (some "hi") (Or.inl rfl)
  exact ⟨h.1, h.2.1, h.2.2.1, h.2.2.2.1⟩

end FatWa
